import Mathlib

set_option maxRecDepth 40000

/-!
Verification model of the external-account credential core of
google-auth-library-python, shallowly embedded from the sources under
`src/google/auth/` (`external_account.py`, `external_account_authorized_user.py`,
`pluggable.py`).  Python runtime data is modelled explicitly: optional values
become `Option`, Python truthiness of optional strings becomes `truthyS`,
raised exceptions become an error outcome, and the injected collaborators
(HTTP transport, STS client, subject-token supplier, the subprocess, the
system clock) become function or value parameters.
-/

/-- The Python exception kinds the embedded code can raise. -/
inductive PyErr
  | valueError
  | typeError
  | nameError
  | keyError
  | refreshError
  | oauthError
  | transportError
deriving DecidableEq

/-- ASCII whitespace, the characters Python's `str.split()` splits on. -/
def isPySpace (c : Char) : Bool :=
  c = ' ' || c = '\t' || c = '\n' || c = '\x0b' || c = '\x0c' || c = '\r'

/-- Python truthiness of an optional string: `None` and `""` are falsy. -/
def truthyS (s : Option String) : Bool :=
  match s with
  | none => false
  | some v => !v.isEmpty

/-- Helper for `pySplit`: walk the characters, accumulating the current word. -/
def pySplitAux : List Char → List Char → List String
  | [], acc => if acc.isEmpty then [] else [String.mk acc.reverse]
  | c :: cs, acc =>
    if isPySpace c then
      if acc.isEmpty then pySplitAux cs [] else String.mk acc.reverse :: pySplitAux cs []
    else pySplitAux cs (c :: acc)

/-- Python's `str.split()` with no arguments: split on whitespace runs,
dropping leading and trailing whitespace. -/
def pySplit (s : String) : List String :=
  pySplitAux s.toList []

/-- Whether the string contains any whitespace character at all. -/
def hasWs (s : String) : Bool :=
  s.toList.any isPySpace

/-- `len(str(url).split()) > 1`: the string has internal whitespace, i.e.
whitespace separating two non-whitespace runs. -/
def hasInternalWs (s : String) : Bool :=
  1 < (pySplit s).length

/-- Python's `str.lower()` (ASCII case folding suffices for the hostnames the
validator compares). -/
def lowerString (s : String) : String :=
  String.mk (s.toList.map Char.toLower)

/-- Result of URL parsing: the fields of urllib3's `Url` that
`is_valid_url` reads. -/
structure PUrl where
  scheme : Option String
  hostname : Option String
deriving DecidableEq

/-- Characters allowed in a URL scheme name. -/
def isSchemeChar (c : Char) : Bool :=
  c.isAlphanum || c = '+' || c = '-' || c = '.'

/-- Characters that end the host portion of the authority. -/
def isHostDelim (c : Char) : Bool :=
  c = '/' || c = '?' || c = '#' || c = ':' || c = '@'

/-- Modelled from the spec: `is_valid_url` parses with `urllib3.util.parse_url`,
which is not under `src/`.  Spec section 4.1 step 2 requires parsing the URL into a
scheme and a hostname, and P4 requires that whitespace-containing URLs never
validate, so this model extracts a leading `name://` scheme and the host up to
the first delimiter, and fails (urllib3 `LocationParseError`, caught by
`is_valid_url` as `False`) whenever the URL contains whitespace; an input with
no scheme prefix parses with `scheme = None`, as urllib3 does. -/
def parse_url (u : String) : Option PUrl :=
  if u.toList.any isPySpace then none
  else
    let cs := u.toList
    let schemePart := cs.takeWhile isSchemeChar
    if !schemePart.isEmpty
        && (match schemePart.head? with | some c => c.isAlpha | none => false)
        && (cs.drop schemePart.length).take 3 = [':', '/', '/'] then
      let rest := cs.drop (schemePart.length + 3)
      let host := rest.takeWhile (fun c => !isHostDelim c)
      some { scheme := some (String.mk schemePart)
             hostname := if host.isEmpty then none else some (String.mk host) }
    else
      some { scheme := none, hostname := none }

/-- `Credentials.is_valid_url` (external_account.py lines 479-497), with the
compiled regex patterns abstracted as Boolean hostname predicates.  Order of
the source checks: the emptiness / whitespace guard, the parse (any exception
returns `False`), the scheme and hostname checks, then the pattern match of
the lower-cased hostname. -/
def is_valid_url (patterns : List (String → Bool)) (url : String) : Bool :=
  if url.isEmpty || 1 < (pySplit url).length then false
  else
    match parse_url url with
    | none => false
    | some uri =>
      if !truthyS uri.scheme || uri.scheme != some "https" || !truthyS uri.hostname then
        false
      else
        patterns.any (fun p => p (lowerString (uri.hostname.getD "")))

/-- A character admitted by the regex class excluding dot, whitespace,
the slash and the backslash, which the host patterns use for their
variable segment. -/
def isSegChar (c : Char) : Bool :=
  !(c = '.' || isPySpace c || c = '/' || c = '\\')

/-- Anchored match of a host pattern of the shape
`pre` + (one or more segment characters) + `suf`: the host must literally
start with `pre`, end with `suf`, and the remainder in between must be a
non-empty run of segment characters. -/
def matchSeg (pre suf host : String) : Bool :=
  let cs := host.toList
  let p := pre.toList
  let s := suf.toList
  decide (p.length + s.length < cs.length)
    && cs.take p.length = p
    && cs.drop (cs.length - s.length) = s
    && ((cs.drop p.length).take (cs.length - p.length - s.length)).all isSegChar

/-- The five STS token-URL host patterns of `validate_token_url`
(external_account.py lines 451-457), each translated from its regex. -/
def stsHostFns : List (String → Bool) :=
  [ fun h => matchSeg "" ".sts.googleapis.com" h,
    fun h => h = "sts.googleapis.com",
    fun h => matchSeg "sts." ".googleapis.com" h,
    fun h => matchSeg "" "-sts.googleapis.com" h,
    fun h => matchSeg "sts-" ".p.googleapis.com" h ]

/-- The five IAM-credentials host patterns of
`validate_service_account_impersonation_url` (lines 464-470). -/
def iamHostFns : List (String → Bool) :=
  [ fun h => matchSeg "" ".iamcredentials.googleapis.com" h,
    fun h => h = "iamcredentials.googleapis.com",
    fun h => matchSeg "iamcredentials." ".googleapis.com" h,
    fun h => matchSeg "" "-iamcredentials.googleapis.com" h,
    fun h => matchSeg "iamcredentials-" ".p.googleapis.com" h ]

/-- `validate_token_url` succeeds (does not raise) iff this holds; a `None`
URL fails the `not url` guard inside `is_valid_url`. -/
def validate_token_url_ok (tokenUrl : Option String) : Bool :=
  match tokenUrl with
  | none => false
  | some u => is_valid_url stsHostFns u

/-- `validate_service_account_impersonation_url` succeeds iff this holds. -/
def validate_sai_url_ok (url : Option String) : Bool :=
  match url with
  | none => false
  | some u => is_valid_url iamHostFns u

/-- Opaque stand-in for the `credential_source` mapping, which the base class
only stores, copies and serializes. -/
structure CredSource where
  srcId : Nat
deriving DecidableEq

/-- The `service_account_impersonation_options` mapping; the code currently
recognizes only `token_lifetime_seconds`.  A value with no field present
models the empty (falsy) dict. -/
structure ImpOptions where
  token_lifetime_seconds : Option Int
deriving DecidableEq

/-- The empty `service_account_impersonation_options` dict. -/
def emptyImpOptions : ImpOptions :=
  { token_lifetime_seconds := none }

/-- Python truthiness of the options dict: empty is falsy. -/
def ImpOptions.truthy (o : ImpOptions) : Bool :=
  o.token_lifetime_seconds.isSome

/-- The keyword arguments of `external_account.Credentials.__init__`
(lines 71-85); `None` defaults become `Option` fields. -/
structure ExtParams where
  audience : Option String := none
  subject_token_type : Option String := none
  token_url : Option String := none
  credential_source : Option CredSource := none
  service_account_impersonation_url : Option String := none
  service_account_impersonation_options : Option ImpOptions := none
  client_id : Option String := none
  client_secret : Option String := none
  quota_project_id : Option String := none
  scopes : Option (List String) := none
  default_scopes : Option (List String) := none
  workforce_pool_user_project : Option String := none
deriving DecidableEq

/-- The configuration stored on a constructed `external_account.Credentials`
(the `self._x` assignments of lines 112-125). -/
structure ExtCred where
  audience : Option String
  subject_token_type : Option String
  token_url : Option String
  credential_source : Option CredSource
  service_account_impersonation_url : Option String
  service_account_impersonation_options : ImpOptions
  client_id : Option String
  client_secret : Option String
  quota_project_id : Option String
  scopes : Option (List String)
  default_scopes : Option (List String)
  workforce_pool_user_project : Option String
deriving DecidableEq

/-- The workforce-pool audience regex of `is_workforce_pool` (line 252),
anchored at the start of the audience: the literal prefix, a non-empty
slash-free location segment, then the literal `/workforcePools/`. -/
def workforceMatch (aud : String) : Bool :=
  let pre := "//iam.googleapis.com/locations/".toList
  let cs := aud.toList
  if cs.take pre.length = pre then
    let rest := cs.drop pre.length
    let seg := rest.takeWhile (fun c => c ≠ '/')
    !seg.isEmpty && (rest.drop seg.length).take 16 = "/workforcePools/".toList
  else false

/-- `is_workforce_pool` (lines 240-253): match the pattern against
`self._audience or ""`. -/
def ExtCred.is_workforce_pool (c : ExtCred) : Bool :=
  workforceMatch (c.audience.getD "")

/-- Python `s.rfind(c)`: index of the last occurrence of the character. -/
def strRFindChar (s : String) (c : Char) : Option Nat :=
  (List.range s.toList.length).filter (fun i => s.toList.get? i = some c) |>.getLast?

/-- Python `s.find(sub)`: index of the first occurrence of the substring. -/
def strFindSub (s sub : String) : Option Nat :=
  (List.range (s.toList.length + 1)).find?
    (fun i => ((s.toList.drop i).take sub.toList.length) = sub.toList)

/-- Python slice `s[a:b]`. -/
def strSlice (s : String) (a b : Nat) : String :=
  String.mk ((s.toList.drop a).take (b - a))

/-- The `service_account_email` property (external_account.py lines 203-219):
when the impersonation URL is truthy, the substring between the last `/` and
the first `:generateAccessToken`, provided both exist in that order. -/
def service_account_email (saiUrl : Option String) : Option String :=
  match saiUrl with
  | none => none
  | some url =>
    if url.isEmpty then none
    else
      match strRFindChar url '/', strFindSub url ":generateAccessToken" with
      | some si, some ei => if si < ei then some (strSlice url (si + 1) ei) else none
      | _, _ => none

/-- `external_account.Credentials.__init__` (lines 71-152): store the
arguments, then in source order validate the token URL (line 127), validate a
truthy impersonation URL (lines 128-131), initialize the impersonated
credentials — which raises RefreshError when no target principal can be
parsed from the impersonation URL (lines 141-144 and 427-434) — and finally
reject a truthy `workforce_pool_user_project` on a non-workforce audience
(lines 147-152).  `extStore` is the record of stored attributes. -/
def extStore (p : ExtParams) : ExtCred :=
  { audience := p.audience
    subject_token_type := p.subject_token_type
    token_url := p.token_url
    credential_source := p.credential_source
    service_account_impersonation_url := p.service_account_impersonation_url
    service_account_impersonation_options :=
      p.service_account_impersonation_options.getD emptyImpOptions
    client_id := p.client_id
    client_secret := p.client_secret
    quota_project_id := p.quota_project_id
    scopes := p.scopes
    default_scopes := p.default_scopes
    workforce_pool_user_project := p.workforce_pool_user_project }

/-- The validation part of `__init__`, run on the stored state. -/
def extInit (p : ExtParams) : Except PyErr ExtCred :=
  if !validate_token_url_ok p.token_url then .error .valueError
  else if truthyS p.service_account_impersonation_url
      && !validate_sai_url_ok p.service_account_impersonation_url then .error .valueError
  else if truthyS p.service_account_impersonation_url
      && (service_account_email p.service_account_impersonation_url).isNone then
    .error .refreshError
  else if !(extStore p).is_workforce_pool && truthyS p.workforce_pool_user_project then
    .error .valueError
  else .ok (extStore p)

/-- The `constructor_args` property (lines 182-200): the keys of the dict it
builds together with the argument values.  Note that it hard-codes
`service_account_impersonation_url=None` and
`service_account_impersonation_options` to the empty dict (lines 189-190), and
pops the workforce key for non-workforce audiences (lines 198-199). -/
def ext_constructor_args (c : ExtCred) : List String × ExtParams :=
  let keys := ["audience", "subject_token_type", "token_url", "credential_source",
    "service_account_impersonation_url", "service_account_impersonation_options",
    "client_id", "client_secret", "quota_project_id", "scopes", "default_scopes",
    "workforce_pool_user_project"]
  let p : ExtParams := {
    audience := c.audience
    subject_token_type := c.subject_token_type
    token_url := c.token_url
    credential_source := c.credential_source
    service_account_impersonation_url := none
    service_account_impersonation_options := some emptyImpOptions
    client_id := c.client_id
    client_secret := c.client_secret
    quota_project_id := c.quota_project_id
    scopes := c.scopes
    default_scopes := c.default_scopes
    workforce_pool_user_project := c.workforce_pool_user_project }
  if !c.is_workforce_pool then
    (keys.filter (fun k => k ≠ "workforce_pool_user_project"),
     { p with workforce_pool_user_project := none })
  else (keys, p)

/-- `with_scopes` (lines 278-284):
`self.__class__(**self.constructor_args, scopes=scopes, default_scopes=default_scopes)`.
Python raises TypeError at the call when an explicit keyword repeats a key of
the unpacked dict; otherwise the constructor runs on the merged arguments. -/
def ext_with_scopes (c : ExtCred) (scopes default_scopes : Option (List String)) :
    Except PyErr ExtCred :=
  let args := ext_constructor_args c
  if args.1.contains "scopes" || args.1.contains "default_scopes" then .error .typeError
  else extInit { args.2 with scopes := scopes, default_scopes := default_scopes }

/-- `with_quota_project` (lines 384-389):
`self.__class__(**self.constructor_args, quota_project_id=quota_project_id)`,
with the same duplicate-keyword rule. -/
def ext_with_quota_project (c : ExtCred) (quota_project_id : Option String) :
    Except PyErr ExtCred :=
  let args := ext_constructor_args c
  if args.1.contains "quota_project_id" then .error .typeError
  else extInit { args.2 with quota_project_id := quota_project_id }

/-- `with_token_uri` (lines 391-409): builds a fresh kwargs dict with every
stored field, the new token URL, and the impersonation fields preserved, pops
the workforce key for non-workforce audiences, and calls the constructor. -/
def ext_with_token_uri (c : ExtCred) (token_uri : Option String) :
    Except PyErr ExtCred :=
  let p : ExtParams := {
    audience := c.audience
    subject_token_type := c.subject_token_type
    token_url := token_uri
    credential_source := c.credential_source
    service_account_impersonation_url := c.service_account_impersonation_url
    service_account_impersonation_options := some c.service_account_impersonation_options
    client_id := c.client_id
    client_secret := c.client_secret
    quota_project_id := c.quota_project_id
    scopes := c.scopes
    default_scopes := c.default_scopes
    workforce_pool_user_project := c.workforce_pool_user_project }
  if !c.is_workforce_pool then extInit { p with workforce_pool_user_project := none }
  else extInit p

/-- The serialized form produced by the `info` property (lines 154-180).
The dict drops `None` values, so each absent key is `none` here; the constant
`type` tag is implicit.  `service_account_impersonation` is the deep copy of
the options dict `or None`, i.e. dropped when the dict is empty. -/
structure ExtInfo where
  audience : Option String
  subject_token_type : Option String
  token_url : Option String
  service_account_impersonation_url : Option String
  service_account_impersonation : Option ImpOptions
  credential_source : Option CredSource
  quota_project_id : Option String
  client_id : Option String
  client_secret : Option String
  workforce_pool_user_project : Option String
deriving DecidableEq

/-- The `info` property (lines 154-180). -/
def ext_info (c : ExtCred) : ExtInfo :=
  { audience := c.audience
    subject_token_type := c.subject_token_type
    token_url := c.token_url
    service_account_impersonation_url := c.service_account_impersonation_url
    service_account_impersonation :=
      if c.service_account_impersonation_options.truthy then
        some c.service_account_impersonation_options
      else none
    credential_source := c.credential_source
    quota_project_id := c.quota_project_id
    client_id := c.client_id
    client_secret := c.client_secret
    workforce_pool_user_project := c.workforce_pool_user_project }

/-- `from_info` (lines 499-532): reads the recognized keys with `info.get` and
calls the constructor; `service_account_impersonation` falls back to the empty
dict, and no `scopes` or `default_scopes` key is read (they can only arrive
through extra keyword arguments, which this model passes as defaults). -/
def ext_from_info (i : ExtInfo) : Except PyErr ExtCred :=
  extInit {
    audience := i.audience
    subject_token_type := i.subject_token_type
    token_url := i.token_url
    service_account_impersonation_url := i.service_account_impersonation_url
    service_account_impersonation_options :=
      some ((i.service_account_impersonation).getD emptyImpOptions)
    client_id := i.client_id
    client_secret := i.client_secret
    credential_source := i.credential_source
    quota_project_id := i.quota_project_id
    workforce_pool_user_project := i.workforce_pool_user_project }

/-- The mutable token state of a credential: `self.token` and `self.expiry`.
Times are seconds; `expiry = now + expires_in`. -/
structure TokState where
  token : Option String
  expiry : Option Int
deriving DecidableEq

/-- The keyword arguments `sts.Client.exchange_token` would receive from
`_make_sts_request` (lines 373-382). -/
structure StsCall where
  grant_type : String
  subject_token : String
  subject_token_type : Option String
  audience : Option String
  scopes : Option (List String)
  requested_token_type : String
  additional_options : Option String
deriving DecidableEq

/-- The parsed JSON body of an STS success response, as the handlers read it:
`access_token`, `expires_in` and optionally `refresh_token`. -/
structure StsResponse where
  access_token : Option String
  expires_in : Option Int
  refresh_token : Option String
deriving DecidableEq

/-- `_make_sts_request` (lines 362-382).  The supplier call and the exchange
round trip are parameters: `subjectToken` is the outcome of
`self.retrieve_subject_token(request)` and `exchange` the STS client.  The
method first computes `additional_options` (lines 368-372), and the call at
lines 373-382 evaluates its keyword arguments left to right: the supplier runs
first, and then the bare name `scopes` on line 379 is evaluated.  No binding
for `scopes` exists in this method or at module level (the local that
`refresh` computes on line 350 is not visible in another method), so Python
raises NameError before `exchange_token` is ever invoked. -/
def ext_make_sts_request (c : ExtCred) (subjectToken : Except PyErr String)
    (_exchange : StsCall → Except PyErr StsResponse) : Except PyErr StsResponse :=
  let _additional_options : Option String :=
    if truthyS c.workforce_pool_user_project && !truthyS c.client_id then
      c.workforce_pool_user_project
    else none
  match subjectToken with
  | .error e => .error e
  | .ok _tok => .error .nameError

/-- `refresh` (lines 348-360).  `impRefresh` is the outcome of
`self._impersonated_credentials.refresh(request)` (the impersonation client
lives outside `src/`), which is consulted only when the impersonation URL is
configured; `now` is the frozen `_helpers.utcnow()`.  The non-impersonated
branch assigns `self.token` from the response before constructing
`timedelta(seconds=response_data.get("expires_in"))`, which raises TypeError
when `expires_in` is missing.  The result pairs the raised exception, if any,
with the final token state. -/
def ext_refresh (c : ExtCred) (st : TokState) (now : Int)
    (impRefresh : Except PyErr TokState)
    (subjectToken : Except PyErr String)
    (exchange : StsCall → Except PyErr StsResponse) : Option PyErr × TokState :=
  let _scopes := if c.scopes.isSome then c.scopes else c.default_scopes
  if truthyS c.service_account_impersonation_url then
    match impRefresh with
    | .error e => (some e, st)
    | .ok ist => (none, { token := ist.token, expiry := ist.expiry })
  else
    match ext_make_sts_request c subjectToken exchange with
    | .error e => (some e, st)
    | .ok rd =>
      let st1 := { st with token := rd.access_token }
      match rd.expires_in with
      | none => (some .typeError, st1)
      | some n => (none, { st1 with expiry := some (now + n) })

/-- The state stored by `external_account_authorized_user.Credentials.__init__`
(lines 95-106): the mutable `token`, `expiry`, the stored `_refresh_token` and
the configuration strings.  `constructor_args` (lines 131-143) returns exactly
these ten fields, so derivations are record updates. -/
structure AUCred where
  token : Option String
  expiry : Option Int
  audience : Option String
  refresh_token : Option String
  token_url : Option String
  token_info_url : Option String
  client_id : Option String
  client_secret : Option String
  revoke_url : Option String
  quota_project_id : Option String
deriving DecidableEq

/-- `refresh` (external_account_authorized_user.py lines 163-173).  `resp` is
the outcome of `self._sts_client.refresh_token(request, self._refresh_token)`
(lines 175-176; the STS client lives outside `src/`, spec section 4.2: transport
errors and non-2xx responses raise, a success yields the parsed JSON body).
On a success the code assigns `self.token`, then builds
`timedelta(seconds=response_data.get("expires_in"))` — TypeError when
`expires_in` is missing, leaving the already-assigned token behind — then sets
`self.expiry` and rotates `self._refresh_token` when the response carries a
new one.  The result pairs the raised exception, if any, with the final
credential. -/
def au_refresh (c : AUCred) (now : Int) (resp : Except PyErr StsResponse) :
    Option PyErr × AUCred :=
  match resp with
  | .error e => (some e, c)
  | .ok rd =>
    let c1 := { c with token := rd.access_token }
    match rd.expires_in with
    | none => (some .typeError, c1)
    | some n =>
      let c2 := { c1 with expiry := some (now + n) }
      match rd.refresh_token with
      | some rt => (none, { c2 with refresh_token := some rt })
      | none => (none, c2)

/-- `constructor_args` (lines 131-143): the dict of the ten constructor
arguments, including the current `token`, `expiry` and stored refresh token. -/
def au_constructor_args (c : AUCred) : AUCred :=
  { token := c.token
    expiry := c.expiry
    audience := c.audience
    refresh_token := c.refresh_token
    token_url := c.token_url
    token_info_url := c.token_info_url
    client_id := c.client_id
    client_secret := c.client_secret
    revoke_url := c.revoke_url
    quota_project_id := c.quota_project_id }

/-- `with_quota_project` (lines 178-182): copy `constructor_args()`, update
the quota project, call the constructor (`__init__`, lines 64-111, only
stores the fields and builds the STS client). -/
def au_with_quota_project (c : AUCred) (quota_project_id : String) : AUCred :=
  { au_constructor_args c with quota_project_id := some quota_project_id }

/-- `with_token_uri` (lines 184-188): copy `constructor_args()`, update the
token URL, call the constructor. -/
def au_with_token_uri (c : AUCred) (token_uri : String) : AUCred :=
  { au_constructor_args c with token_url := some token_uri }

/-- A value in the child-process environment dict built by the pluggable
supplier.  Python allows any object in the dict; the code stores strings, the
integer `0` (pluggable.py line 216), and `None` (the `service_account_email`
property when no impersonation is configured). -/
inductive EnvVal
  | str (s : String)
  | int (n : Int)
  | pyNone
deriving DecidableEq

/-- A Python value-or-None as an environment entry. -/
def envVal (s : Option String) : EnvVal :=
  match s with
  | some v => .str v
  | none => .pyNone

/-- The configuration stored on a `pluggable.Credentials` that the
executable paths read: the base-class fields it consults plus the validated
`credential_source.executable` fields. -/
structure PCred where
  audience : Option String
  subject_token_type : Option String
  service_account_impersonation_url : Option String
  interactive : Bool
  command : String
  timeout_millis : Int
  interactive_timeout_millis : Int
  output_file : Option String
deriving DecidableEq

/-- The parsed JSON of an executable response (stdout or output file), per
the schema of `_parse_subject_token`; each field is `none` when the key is
absent. -/
structure ExecResponse where
  version : Option Int
  success : Option Bool
  token_type : Option String
  id_token : Option String
  saml_response : Option String
  expiration_time : Option Int
  code : Option String
  message : Option String
deriving DecidableEq

/-- `_parse_subject_token` (pluggable.py lines 353-396), with `nowT` for
`time.time()`.  Missing required keys raise ValueError; unsupported versions,
unsuccessful responses, expired tokens and unsupported token types raise
RefreshError; a missing `id_token`/`saml_response` key raises KeyError
(Python subscription of an absent key). -/
def plug_parse_subject_token (c : PCred) (r : ExecResponse) (nowT : Int) :
    Except PyErr String :=
  match r.version with
  | none => .error .valueError
  | some v =>
    if v > 1 then .error .refreshError
    else
      match r.success with
      | none => .error .valueError
      | some succ =>
        if !succ then
          if r.code.isNone || r.message.isNone then .error .valueError
          else .error .refreshError
        else if r.expiration_time.isNone && !c.interactive && truthyS c.output_file then
          .error .valueError
        else if (match r.expiration_time with
                 | some t => decide (t < nowT)
                 | none => false) then
          .error .refreshError
        else
          match r.token_type with
          | none => .error .valueError
          | some tt =>
            if tt = "urn:ietf:params:oauth:token-type:jwt"
                || tt = "urn:ietf:params:oauth:token-type:id_token" then
              match r.id_token with
              | some t => .ok t
              | none => .error .keyError
            else if tt = "urn:ietf:params:oauth:token-type:saml2" then
              match r.saml_response with
              | some t => .ok t
              | none => .error .keyError
            else .error .refreshError

/-- The environment entries `retrieve_subject_token` adds to the copy of the
parent environment before spawning (lines 211-225), in assignment order.
Line 216 assigns the integer `0`, not the string `"0"`, to `..._REVOKE`, and
line 214 assigns the raw `service_account_email` property, which is `None`
when no impersonation is configured.  The impersonated-email and output-file
entries are added only under their `is not None` checks (lines 218 and 222). -/
def plug_child_env (c : PCred) : List (String × EnvVal) :=
  [("GOOGLE_EXTERNAL_ACCOUNT_AUDIENCE", envVal c.audience),
   ("GOOGLE_EXTERNAL_ACCOUNT_TOKEN_TYPE", envVal c.subject_token_type),
   ("GOOGLE_EXTERNAL_ACCOUNT_ID",
      envVal (service_account_email c.service_account_impersonation_url)),
   ("GOOGLE_EXTERNAL_ACCOUNT_INTERACTIVE", .str (if c.interactive then "1" else "0")),
   ("GOOGLE_EXTERNAL_ACCOUNT_REVOKE", .int 0)]
  ++ (if c.service_account_impersonation_url.isSome then
        [("GOOGLE_EXTERNAL_ACCOUNT_IMPERSONATED_EMAIL",
           envVal (service_account_email c.service_account_impersonation_url))]
      else [])
  ++ (if c.output_file.isSome then
        [("GOOGLE_EXTERNAL_ACCOUNT_OUTPUT_FILE", envVal c.output_file)]
      else [])

/-- How far `retrieve_subject_token` gets: it raises, returns a cached token
from the output file, or reaches `subprocess.run` with the given child
environment additions. -/
inductive POut
  | err (e : PyErr)
  | cached (tok : String)
  | spawn (env : List (String × EnvVal))
deriving DecidableEq

/-- `pluggable.Credentials.retrieve_subject_token` (lines 164-259), modelled
up to the subprocess spawn.  `envAllow` is
`os.environ.get("GOOGLE_EXTERNAL_ACCOUNT_ALLOW_EXECUTABLES")`; `fileContent`
is the result of opening and JSON-parsing the output file (`none` when the
open or the parse raised, the `except Exception: pass` path); `nowT` is
`time.time()`.  In the cached-token block (lines 181-203), a ValueError (or
any exception other than RefreshError, e.g. the KeyError of an absent token
field) from `_parse_subject_token` propagates, a RefreshError — including the
one raised when the parsed response has no `expiration_time` — falls through
to execution, and a parsed token is returned without spawning.  The
`_helpers.is_python_3()` guard (lines 205-208) is code outside `src/`;
modelled from the spec, which fixes the library to Python 3, it passes. -/
def plug_retrieve_subject_token (c : PCred) (envAllow : Option String)
    (fileContent : Option ExecResponse) (nowT : Int) : POut :=
  if envAllow ≠ some "1" then .err .valueError
  else if c.interactive && !truthyS c.output_file then .err .valueError
  else if c.interactive && !workforceMatch (c.audience.getD "") then .err .valueError
  else
    let cacheHit : Option POut :=
      if c.output_file.isSome then
        match fileContent with
        | none => none
        | some r =>
          match plug_parse_subject_token c r nowT with
          | .ok tok => if r.expiration_time.isSome then some (.cached tok) else none
          | .error .refreshError => none
          | .error e => some (.err e)
      else none
    match cacheHit with
    | some out => out
    | none => .spawn (plug_child_env c)

/-- `pluggable.Credentials.revoke` (lines 261-317), modelled up to the
subprocess spawn: the executable gate, the interactive-only gate, then the
environment additions of lines 289-301 (here `..._REVOKE` is the string
`"1"` and the output-file entry is assigned unconditionally). -/
def plug_revoke (c : PCred) (envAllow : Option String) :
    Except PyErr (List (String × EnvVal)) :=
  if envAllow ≠ some "1" then .error .valueError
  else if !c.interactive then .error .valueError
  else .ok (
    [("GOOGLE_EXTERNAL_ACCOUNT_AUDIENCE", envVal c.audience),
     ("GOOGLE_EXTERNAL_ACCOUNT_TOKEN_TYPE", envVal c.subject_token_type),
     ("GOOGLE_EXTERNAL_ACCOUNT_ID",
        envVal (service_account_email c.service_account_impersonation_url)),
     ("GOOGLE_EXTERNAL_ACCOUNT_INTERACTIVE", .str "1"),
     ("GOOGLE_EXTERNAL_ACCOUNT_REVOKE", .str "1")]
    ++ (if c.service_account_impersonation_url.isSome then
          [("GOOGLE_EXTERNAL_ACCOUNT_IMPERSONATED_EMAIL",
             envVal (service_account_email c.service_account_impersonation_url))]
        else [])
    ++ [("GOOGLE_EXTERNAL_ACCOUNT_OUTPUT_FILE", envVal c.output_file)])

/-- The `executable` sub-dict of a pluggable `credential_source`, before
validation; each field is `none` when the key is absent. -/
structure ExecSourceDict where
  command : Option String := none
  timeout_millis : Option Int := none
  interactive_timeout_millis : Option Int := none
  output_file : Option String := none
deriving DecidableEq

/-- Python falsiness of the executable dict: no key present. -/
def ExecSourceDict.falsy (d : ExecSourceDict) : Bool :=
  d.command.isNone && d.timeout_millis.isNone
    && d.interactive_timeout_millis.isNone && d.output_file.isNone

/-- The `credential_source` argument of `pluggable.Credentials.__init__`:
either not a mapping at all, or a mapping whose `executable` key may be
absent. -/
inductive PlugSource
  | notMapping
  | mapping (executable : Option ExecSourceDict)
deriving DecidableEq

/-- The executable configuration stored by a successful
`pluggable.Credentials.__init__`. -/
structure ExecCfg where
  command : String
  timeout_millis : Int
  interactive_timeout_millis : Int
  output_file : Option String
deriving DecidableEq

/-- The `credential_source` validation of `pluggable.Credentials.__init__`
(lines 113-162), run after the base-class constructor succeeded: the source
must be a mapping with a truthy `executable` entry and a truthy `command`;
a falsy `timeout_millis` (absent or `0`) defaults to 30000, a truthy one must
lie in [5000, 120000]; a falsy `interactive_timeout_millis` defaults to
300000, a truthy one must lie in [300000, 1800000]. -/
def plug_validate_source (cs : PlugSource) : Except PyErr ExecCfg :=
  match cs with
  | .notMapping => .error .valueError
  | .mapping exOpt =>
    match exOpt with
    | none => .error .valueError
    | some ex =>
      if ex.falsy then .error .valueError
      else if !truthyS ex.command then .error .valueError
      else
        let t : Except PyErr Int :=
          match ex.timeout_millis with
          | none => .ok 30000
          | some n =>
            if n = 0 then .ok 30000
            else if n < 5000 || 120000 < n then .error .valueError
            else .ok n
        match t with
        | .error e => .error e
        | .ok tv =>
          let it : Except PyErr Int :=
            match ex.interactive_timeout_millis with
            | none => .ok 300000
            | some n =>
              if n = 0 then .ok 300000
              else if n < 300000 || 1800000 < n then .error .valueError
              else .ok n
          match it with
          | .error e => .error e
          | .ok itv =>
            .ok { command := ex.command.getD ""
                  timeout_millis := tv
                  interactive_timeout_millis := itv
                  output_file := ex.output_file }

/-- A valid workload-identity-pool audience. -/
def workloadAud : String :=
  "//iam.googleapis.com/projects/123456/locations/global/workloadIdentityPools/pool/providers/provider"

/-- A valid workforce-pool audience (matches the workforce regex). -/
def workforceAud : String :=
  "//iam.googleapis.com/locations/global/workforcePools/pool/providers/provider"

/-- A valid impersonation URL carrying a target principal. -/
def sampleSaiUrl : String :=
  "https://iamcredentials.googleapis.com/v1/projects/-/serviceAccounts/sa@project.iam.gserviceaccount.com:generateAccessToken"

/-- A valid workload external-account configuration with impersonation,
client authentication and user scopes configured. -/
def sampleImpParams : ExtParams :=
  { audience := some workloadAud
    subject_token_type := some "urn:ietf:params:oauth:token-type:jwt"
    token_url := some "https://sts.googleapis.com"
    credential_source := some { srcId := 1 }
    service_account_impersonation_url := some sampleSaiUrl
    service_account_impersonation_options := some { token_lifetime_seconds := some 1800 }
    client_id := some "cid"
    client_secret := some "csec"
    quota_project_id := some "qp"
    scopes := some ["scope1"]
    default_scopes := some ["dscope"]
    workforce_pool_user_project := none }

/-- The credential stored for `sampleImpParams`. -/
def sampleImpCred : ExtCred :=
  { audience := some workloadAud
    subject_token_type := some "urn:ietf:params:oauth:token-type:jwt"
    token_url := some "https://sts.googleapis.com"
    credential_source := some { srcId := 1 }
    service_account_impersonation_url := some sampleSaiUrl
    service_account_impersonation_options := { token_lifetime_seconds := some 1800 }
    client_id := some "cid"
    client_secret := some "csec"
    quota_project_id := some "qp"
    scopes := some ["scope1"]
    default_scopes := some ["dscope"]
    workforce_pool_user_project := none }

/-- A valid workload configuration without impersonation and without
client authentication. -/
def samplePlainCred : ExtCred :=
  { audience := some workloadAud
    subject_token_type := some "urn:ietf:params:oauth:token-type:jwt"
    token_url := some "https://sts.googleapis.com"
    credential_source := some { srcId := 2 }
    service_account_impersonation_url := none
    service_account_impersonation_options := { token_lifetime_seconds := none }
    client_id := none
    client_secret := none
    quota_project_id := none
    scopes := some ["scope1"]
    default_scopes := none
    workforce_pool_user_project := none }

/-- A non-interactive pluggable credential without impersonation, with an
output file configured. -/
def samplePCred : PCred :=
  { audience := some workloadAud
    subject_token_type := some "urn:ietf:params:oauth:token-type:jwt"
    service_account_impersonation_url := none
    interactive := false
    command := "/bin/get-token --flag"
    timeout_millis := 30000
    interactive_timeout_millis := 300000
    output_file := some "/tmp/cache.json" }

instance {ε α : Type} [DecidableEq ε] [DecidableEq α] : DecidableEq (Except ε α) := fun a b =>
  match a, b with
  | .error x, .error y =>
    if h : x = y then .isTrue (by rw [h]) else .isFalse (by intro hh; cases hh; exact h rfl)
  | .ok x, .ok y =>
    if h : x = y then .isTrue (by rw [h]) else .isFalse (by intro hh; cases hh; exact h rfl)
  | .error _, .ok _ => .isFalse (by intro hh; cases hh)
  | .ok _, .error _ => .isFalse (by intro hh; cases hh)

/-- An authorized-user credential holding a token, an expiry and a stored
refresh token. -/
def c3AuCred : AUCred :=
  { token := some "OLD"
    expiry := some 100
    audience := some workforceAud
    refresh_token := some "RT"
    token_url := some "https://sts.googleapis.com/v1/oauth/token"
    token_info_url := some "https://sts.googleapis.com/v1/introspect"
    client_id := some "cid"
    client_secret := some "cs"
    revoke_url := none
    quota_project_id := none }

/-- A well-formed successful executable response with a future expiration
(relative to the sample clock 100). -/
def c7CachedGood : ExecResponse :=
  { version := some 1
    success := some true
    token_type := some "urn:ietf:params:oauth:token-type:jwt"
    id_token := some "J"
    saml_response := none
    expiration_time := some 9999
    code := none
    message := none }

/-- A successful executable response with no `expiration_time` key. -/
def c7MissingExpiry : ExecResponse :=
  { c7CachedGood with expiration_time := none }

/-- A successful executable response whose expiration is in the past
(relative to the sample clock 100). -/
def c7Expired : ExecResponse :=
  { c7CachedGood with expiration_time := some 50 }

/-- Helper: `_make_sts_request` can never return a parsed response: after a
successful supplier call it evaluates the unbound name `scopes` and raises
NameError, and a failed supplier call raises the supplier's error. -/
theorem ext_make_sts_request_never_ok (c : ExtCred) (subjectToken : Except PyErr String)
    (exchange : StsCall → Except PyErr StsResponse) (rd : StsResponse) :
    ext_make_sts_request c subjectToken exchange ≠ .ok rd := by
  intro h
  unfold ext_make_sts_request at h
  cases subjectToken <;> simp at h

/-- C1: the claim says that for a non-impersonated external-account
credential, `refresh` at frozen `now` with an STS response carrying
`access_token = a` and `expires_in = n` sets `token := a` and
`expiry := now + n`, passing the user scopes (else default scopes) to
`exchange_token`.  The code instead raises NameError on every such refresh:
`_make_sts_request` reads a bare `scopes` name that is bound neither in that
method nor at module level (the local computed by `refresh` on line 350 is
invisible there), so the exchange is never performed and the token state is
never set.  This theorem evaluates the embedded `refresh` on a valid
non-impersonated credential, a succeeding supplier and a succeeding STS
exchange: the result is the NameError with the state unchanged, for every
initial state, clock value and exchange outcome. -/
theorem claim_C1_refresh_raises_name_error
    (st : TokState) (now : Int) (exchange : StsCall → Except PyErr StsResponse) :
    ext_refresh samplePlainCred st now
      (.ok { token := some "imp", expiry := some 5 }) (.ok "subj") exchange
      = (some .nameError, st) := rfl

/-- C2: the claim says `with_scopes`, `with_quota_project` and
`with_token_uri` each return a fresh credential preserving every other
configuration field, in particular the impersonation URL and options.  In the
code, `constructor_args` (lines 182-200) already contains the keys `scopes`,
`default_scopes` and `quota_project_id`, so the calls
`self.__class__(**self.constructor_args, scopes=..., default_scopes=...)`
(with_scopes, lines 280-284) and
`self.__class__(**self.constructor_args, quota_project_id=...)`
(with_quota_project, lines 386-389) pass duplicate keyword arguments and
raise TypeError for every credential; moreover `constructor_args` hard-codes
`service_account_impersonation_url=None` and empties the impersonation
options (lines 189-190), so the impersonation configuration would not be
preserved in any case.  Only `with_token_uri` builds a fresh dict. -/
theorem claim_C2_with_scopes_and_quota_project_raise_type_error
    (c : ExtCred) (s d : Option (List String)) (q : Option String) :
    ext_with_scopes c s d = .error .typeError
    ∧ ext_with_quota_project c q = .error .typeError
    ∧ (ext_constructor_args c).2.service_account_impersonation_url = none := by
  unfold ext_with_scopes ext_with_quota_project ext_constructor_args
  by_cases h : c.is_workforce_pool <;> simp [h]

/-- C10: the claim says the authorized-user `with_quota_project` and
`with_token_uri` carry over the current token, expiry and stored refresh
token, changing only the quota project, respectively the token URL.
`constructor_args` returns all ten stored fields including `token`, `expiry`
and `_refresh_token`, and the derivations only update their one key, so the
derived credential is the original record with that single field replaced. -/
theorem claim_C10_authorized_user_derivations_carry_state
    (c : AUCred) (q uri : String) :
    au_with_quota_project c q = { c with quota_project_id := some q }
    ∧ au_with_token_uri c uri = { c with token_url := some uri } :=
  ⟨rfl, rfl⟩

/-- C6: `retrieve_subject_token` and `revoke` both begin by reading
`GOOGLE_EXTERNAL_ACCOUNT_ALLOW_EXECUTABLES` and raise ValueError (a
configuration error) before the cached-token block or any environment setup
whenever its value is not exactly the string `"1"`, so no process is ever
spawned (the outcome is the error, never the spawn step). -/
theorem claim_C6_executable_gate :
    (∀ (c : PCred) (envAllow : Option String) (fc : Option ExecResponse) (nowT : Int),
       envAllow ≠ some "1" →
       plug_retrieve_subject_token c envAllow fc nowT = .err .valueError)
    ∧ (∀ (c : PCred) (envAllow : Option String),
       envAllow ≠ some "1" →
       plug_revoke c envAllow = .error .valueError) := by
  constructor
  · intro c envAllow fc nowT h
    unfold plug_retrieve_subject_token
    simp [h]
  · intro c envAllow h
    unfold plug_revoke
    simp [h]

/-- C6 witness: the gate fires for an unset variable and for the value
`"0"`. -/
theorem claim_C6_executable_gate_witness :
    ((none : Option String) ≠ some "1"
      ∧ plug_retrieve_subject_token samplePCred none none 0 = .err .valueError)
    ∧ ((some "0" : Option String) ≠ some "1"
      ∧ plug_revoke samplePCred (some "0") = .error .valueError) :=
  ⟨⟨by decide, claim_C6_executable_gate.1 samplePCred none none 0 (by decide)⟩,
   ⟨by decide, claim_C6_executable_gate.2 samplePCred (some "0") (by decide)⟩⟩

/-- C8: the claim says the child environment sets `..._REVOKE` to the string
`"0"` and `..._ID` to the impersonation target email or empty.  The code at
pluggable.py line 216 assigns the integer `0` (not `"0"`), and line 214
assigns the raw `service_account_email` property, which is Python `None` (not
`""`) when no impersonation is configured.  Evaluated on a non-interactive
credential without impersonation or output file that reaches the spawn step:
the spawned environment carries the integer `0` under `..._REVOKE` and `None`
under `..._ID` (on which `subprocess.run` would fail, since environment
values must be strings). -/
theorem claim_C8_child_env_revoke_and_id_values :
    plug_retrieve_subject_token { samplePCred with output_file := none } (some "1") none 0
      = .spawn (plug_child_env { samplePCred with output_file := none })
    ∧ (plug_child_env { samplePCred with output_file := none }).lookup
        "GOOGLE_EXTERNAL_ACCOUNT_REVOKE" = some (.int 0)
    ∧ (plug_child_env { samplePCred with output_file := none }).lookup
        "GOOGLE_EXTERNAL_ACCOUNT_ID" = some .pyNone := by
  refine ⟨rfl, by decide, by decide⟩

/-- C9 counterexample: the claim says construction raises for every
`timeout_millis` outside [5000, 120000], but `0` is outside the interval and
is falsy in Python, so the check `if not ...timeout_millis` treats it as
absent and substitutes the 30000 default instead of raising. -/
theorem claim_C9_counterexample :
    plug_validate_source (.mapping (some
      { command := some "/bin/cmd", timeout_millis := some 0,
        interactive_timeout_millis := none, output_file := none }))
      = .ok { command := "/bin/cmd", timeout_millis := 30000,
              interactive_timeout_millis := 300000, output_file := none } := by
  decide

/-- C9 (amended): with a non-empty command, construction raises ValueError
for every truthy (non-zero) `timeout_millis` outside [5000, 120000] whatever
the interactive timeout is, and for every truthy
`interactive_timeout_millis` outside [300000, 1800000] whatever the
`timeout_millis` entry is; and in every successful construction, an absent —
or zero, hence falsy — `timeout_millis` has defaulted to 30000 and an absent
or zero `interactive_timeout_millis` has defaulted to 300000, whatever the
other fields are. -/
theorem claim_C9_amended_timeout_validation :
    (∀ (cmd : String) (n : Int) (it : Option Int) (outf : Option String),
       cmd.isEmpty = false → n ≠ 0 → (n < 5000 ∨ 120000 < n) →
       plug_validate_source (.mapping (some
         { command := some cmd, timeout_millis := some n,
           interactive_timeout_millis := it, output_file := outf }))
         = .error .valueError)
    ∧ (∀ (cmd : String) (tm : Option Int) (m : Int) (outf : Option String),
       cmd.isEmpty = false → m ≠ 0 → (m < 300000 ∨ 1800000 < m) →
       plug_validate_source (.mapping (some
         { command := some cmd, timeout_millis := tm,
           interactive_timeout_millis := some m, output_file := outf }))
         = .error .valueError)
    ∧ (∀ (cmd : String) (tm it : Option Int) (outf : Option String) (cfg : ExecCfg),
       (tm = none ∨ tm = some 0) →
       plug_validate_source (.mapping (some
         { command := some cmd, timeout_millis := tm,
           interactive_timeout_millis := it, output_file := outf }))
         = .ok cfg →
       cfg.timeout_millis = 30000)
    ∧ (∀ (cmd : String) (tm it : Option Int) (outf : Option String) (cfg : ExecCfg),
       (it = none ∨ it = some 0) →
       plug_validate_source (.mapping (some
         { command := some cmd, timeout_millis := tm,
           interactive_timeout_millis := it, output_file := outf }))
         = .ok cfg →
       cfg.interactive_timeout_millis = 300000) := by
  refine ⟨?_, ?_, ?_, ?_⟩
  · intro cmd n it outf hcmd hn hrange
    have hr : (n < 5000 || 120000 < n) = true := by
      rcases hrange with h | h <;> simp [h]
    unfold plug_validate_source
    simp [ExecSourceDict.falsy, truthyS, hcmd, hn, hr]
  · intro cmd tm m outf hcmd hm hrange
    have hr : (m < 300000 || 1800000 < m) = true := by
      rcases hrange with h | h <;> simp [h]
    unfold plug_validate_source
    rcases tm with _ | t
    · simp [ExecSourceDict.falsy, truthyS, hcmd, hm, hr]
    · by_cases ht : t = 0
      · subst ht
        simp [ExecSourceDict.falsy, truthyS, hcmd, hm, hr]
      · by_cases htr : (t < 5000 || 120000 < t) = true
        · simp [ExecSourceDict.falsy, truthyS, hcmd, ht, htr]
        · rw [Bool.not_eq_true] at htr
          simp [ExecSourceDict.falsy, truthyS, hcmd, hm, hr, ht, htr]
  · intro cmd tm it outf cfg hz hok
    cases hc : cmd.isEmpty
    case true =>
      unfold plug_validate_source at hok
      simp [ExecSourceDict.falsy, truthyS, hc] at hok
    case false =>
      unfold plug_validate_source at hok
      rcases hz with rfl | rfl
      · rcases it with _ | m
        · simp [ExecSourceDict.falsy, truthyS, hc] at hok
          rw [← hok]
        · by_cases hm0 : m = 0
          · subst hm0
            simp [ExecSourceDict.falsy, truthyS, hc] at hok
            rw [← hok]
          · by_cases hmr : (m < 300000 || 1800000 < m) = true
            · simp [ExecSourceDict.falsy, truthyS, hc, hm0, hmr] at hok
            · rw [Bool.not_eq_true] at hmr
              simp [ExecSourceDict.falsy, truthyS, hc, hm0, hmr] at hok
              rw [← hok]
      · rcases it with _ | m
        · simp [ExecSourceDict.falsy, truthyS, hc] at hok
          rw [← hok]
        · by_cases hm0 : m = 0
          · subst hm0
            simp [ExecSourceDict.falsy, truthyS, hc] at hok
            rw [← hok]
          · by_cases hmr : (m < 300000 || 1800000 < m) = true
            · simp [ExecSourceDict.falsy, truthyS, hc, hm0, hmr] at hok
            · rw [Bool.not_eq_true] at hmr
              simp [ExecSourceDict.falsy, truthyS, hc, hm0, hmr] at hok
              rw [← hok]
  · intro cmd tm it outf cfg hz hok
    cases hc : cmd.isEmpty
    case true =>
      unfold plug_validate_source at hok
      simp [ExecSourceDict.falsy, truthyS, hc] at hok
    case false =>
      unfold plug_validate_source at hok
      rcases hz with rfl | rfl
      · rcases tm with _ | t
        · simp [ExecSourceDict.falsy, truthyS, hc] at hok
          rw [← hok]
        · by_cases ht0 : t = 0
          · subst ht0
            simp [ExecSourceDict.falsy, truthyS, hc] at hok
            rw [← hok]
          · by_cases htr : (t < 5000 || 120000 < t) = true
            · simp [ExecSourceDict.falsy, truthyS, hc, ht0, htr] at hok
            · rw [Bool.not_eq_true] at htr
              simp [ExecSourceDict.falsy, truthyS, hc, ht0, htr] at hok
              rw [← hok]
      · rcases tm with _ | t
        · simp [ExecSourceDict.falsy, truthyS, hc] at hok
          rw [← hok]
        · by_cases ht0 : t = 0
          · subst ht0
            simp [ExecSourceDict.falsy, truthyS, hc] at hok
            rw [← hok]
          · by_cases htr : (t < 5000 || 120000 < t) = true
            · simp [ExecSourceDict.falsy, truthyS, hc, ht0, htr] at hok
            · rw [Bool.not_eq_true] at htr
              simp [ExecSourceDict.falsy, truthyS, hc, ht0, htr] at hok
              rw [← hok]

/-- C9 witness: a timeout of 200000 next to a present, valid interactive
timeout is rejected; an interactive timeout of 2000000 next to a present,
valid timeout is rejected; a zero `timeout_millis` next to a present
interactive timeout defaults to 30000 in the successful construction; and a
zero `interactive_timeout_millis` next to a present timeout defaults to
300000. -/
theorem claim_C9_amended_witness :
    plug_validate_source (.mapping (some
      { command := some "/bin/cmd", timeout_millis := some 200000,
        interactive_timeout_millis := some 600000, output_file := none }))
      = .error .valueError
    ∧ plug_validate_source (.mapping (some
        { command := some "/bin/cmd", timeout_millis := some 60000,
          interactive_timeout_millis := some 2000000, output_file := none }))
      = .error .valueError
    ∧ plug_validate_source (.mapping (some
        { command := some "/bin/cmd", timeout_millis := some 0,
          interactive_timeout_millis := some 600000, output_file := none }))
      = .ok { command := "/bin/cmd", timeout_millis := 30000,
              interactive_timeout_millis := 600000, output_file := none }
    ∧ ({ command := "/bin/cmd", timeout_millis := 30000,
         interactive_timeout_millis := 600000,
         output_file := none } : ExecCfg).timeout_millis = 30000
    ∧ plug_validate_source (.mapping (some
        { command := some "/bin/cmd", timeout_millis := some 60000,
          interactive_timeout_millis := some 0, output_file := some "/tmp/out" }))
      = .ok { command := "/bin/cmd", timeout_millis := 60000,
              interactive_timeout_millis := 300000, output_file := some "/tmp/out" }
    ∧ ({ command := "/bin/cmd", timeout_millis := 60000,
         interactive_timeout_millis := 300000,
         output_file := some "/tmp/out" } : ExecCfg).interactive_timeout_millis
        = 300000 :=
  ⟨claim_C9_amended_timeout_validation.1 "/bin/cmd" 200000 (some 600000) none
     (by decide) (by decide) (Or.inr (by decide)),
   claim_C9_amended_timeout_validation.2.1 "/bin/cmd" (some 60000) 2000000 none
     (by decide) (by decide) (Or.inr (by decide)),
   by decide,
   claim_C9_amended_timeout_validation.2.2.1 "/bin/cmd" (some 0) (some 600000) none
     { command := "/bin/cmd", timeout_millis := 30000,
       interactive_timeout_millis := 600000, output_file := none }
     (Or.inr rfl) (by decide),
   by decide,
   claim_C9_amended_timeout_validation.2.2.2 "/bin/cmd" (some 60000) (some 0)
     (some "/tmp/out")
     { command := "/bin/cmd", timeout_millis := 60000,
       interactive_timeout_millis := 300000, output_file := some "/tmp/out" }
     (Or.inr rfl) (by decide)⟩

/-- C3 counterexample: the claim says every failing `refresh` — including one
on a malformed STS success response missing `expires_in` — leaves the
credential state exactly as before.  For the authorized-user credential the
code assigns `self.token` before building `timedelta` from the missing
`expires_in`, so the call raises (TypeError) with the token already
overwritten: the resulting credential differs from the original. -/
theorem claim_C3_counterexample :
    (au_refresh c3AuCred 0
      (.ok { access_token := some "NEW", expires_in := none, refresh_token := none })).1
        = some .typeError
    ∧ (au_refresh c3AuCred 0
        (.ok { access_token := some "NEW", expires_in := none, refresh_token := none })).2
        ≠ c3AuCred := by
  decide

/-- C3 (amended): a failing `refresh` leaves the credential state unchanged
for supplier failures, STS non-2xx/OAuth errors and transport errors — and,
for external-account credentials, for every failing refresh — but when the
authorized-user `refresh` receives a malformed STS success response with no
`expires_in`, it raises TypeError after overwriting `token` with the
response's `access_token`, leaving `expiry` and the stored refresh token
unchanged. -/
theorem claim_C3_amended_refresh_failure_state :
    (∀ (c : ExtCred) (st : TokState) (now : Int) (impRefresh : Except PyErr TokState)
       (subjectToken : Except PyErr String) (exchange : StsCall → Except PyErr StsResponse),
       (ext_refresh c st now impRefresh subjectToken exchange).1.isSome = true →
       (ext_refresh c st now impRefresh subjectToken exchange).2 = st)
    ∧ (∀ (c : AUCred) (now : Int) (e : PyErr),
       au_refresh c now (.error e) = (some e, c))
    ∧ (∀ (c : AUCred) (now : Int) (rd : StsResponse),
       rd.expires_in = none →
       au_refresh c now (.ok rd) = (some .typeError, { c with token := rd.access_token })) := by
  refine ⟨?_, ?_, ?_⟩
  · intro c st now impRefresh subjectToken exchange h
    unfold ext_refresh at h ⊢
    by_cases hi : truthyS c.service_account_impersonation_url
    · simp [hi] at h ⊢
      cases impRefresh with
      | error e => simp
      | ok ist => simp at h
    · simp [hi] at h ⊢
      cases hm : ext_make_sts_request c subjectToken exchange with
      | error e => simp
      | ok rd => exact absurd hm (ext_make_sts_request_never_ok c subjectToken exchange rd)
  · intro c now e
    rfl
  · intro c now rd h
    unfold au_refresh
    simp [h]

/-- C3 witness: an OAuth error from STS leaves the external-account state
untouched; an STS transport error leaves the authorized-user credential
untouched; a success response without `expires_in` raises with only the token
overwritten. -/
theorem claim_C3_amended_witness :
    (ext_refresh samplePlainCred { token := some "T", expiry := some 9 } 0
       (.error .refreshError) (.error .oauthError) (fun _ => .error .oauthError)).2
      = { token := some "T", expiry := some 9 }
    ∧ au_refresh c3AuCred 0 (.error .transportError) = (some .transportError, c3AuCred)
    ∧ au_refresh c3AuCred 0
        (.ok { access_token := some "NEW", expires_in := none, refresh_token := none })
        = (some .typeError, { c3AuCred with token := some "NEW" }) :=
  ⟨claim_C3_amended_refresh_failure_state.1 samplePlainCred
     { token := some "T", expiry := some 9 } 0 (.error .refreshError) (.error .oauthError)
     (fun _ => .error .oauthError) (by decide),
   claim_C3_amended_refresh_failure_state.2.1 c3AuCred 0 .transportError,
   claim_C3_amended_refresh_failure_state.2.2 c3AuCred 0
     { access_token := some "NEW", expires_in := none, refresh_token := none } rfl⟩

/-- C4: for every pattern set and string, `is_valid_url` returns true only if
the URL is non-empty, has no internal whitespace, parses with scheme exactly
`https` and a non-empty hostname, and the lower-cased hostname matches at
least one pattern; and every URL containing any whitespace is rejected. -/
theorem claim_C4_url_allow_list (patterns : List (String → Bool)) (u : String) :
    (is_valid_url patterns u = true →
      u ≠ "" ∧ hasInternalWs u = false ∧
      ∃ host : String,
        parse_url u = some { scheme := some "https", hostname := some host }
        ∧ host ≠ "" ∧ patterns.any (fun p => p (lowerString host)) = true)
    ∧ (hasWs u = true → is_valid_url patterns u = false) := by
  constructor
  · intro h
    unfold is_valid_url at h
    split at h
    · simp at h
    · rename_i hg
      simp only [Bool.or_eq_true, not_or, Bool.not_eq_true, decide_eq_false_iff_not,
        not_lt] at hg
      obtain ⟨hg1, hg2⟩ := hg
      refine ⟨?_, ?_, ?_⟩
      · intro hu
        subst hu
        exact absurd hg1 (by decide)
      · unfold hasInternalWs
        simp only [decide_eq_false_iff_not, not_lt]
        exact hg2
      · split at h
        · simp at h
        · rename_i uri hp
          split at h
          · simp at h
          · rename_i hcond
            rw [Bool.not_eq_true] at hcond
            simp only [Bool.or_eq_false_iff, Bool.not_eq_false', bne_eq_false_iff_eq]
              at hcond
            obtain ⟨⟨hsch, hhttps⟩, hhost⟩ := hcond
            cases hh : uri.hostname with
            | none => rw [hh] at hhost; exact absurd hhost (by simp [truthyS])
            | some host =>
              have hostne : host.isEmpty = false := by
                rw [hh] at hhost
                simpa [truthyS] using hhost
              refine ⟨host, ?_, ?_, ?_⟩
              · rw [hp]
                cases uri with
                | mk sch hn =>
                  simp only at hh hhttps
                  rw [hh, hhttps]
              · intro hne
                subst hne
                exact absurd hostne (by decide)
              · rw [hh] at h
                simpa using h
  · intro hws
    have hany : u.toList.any isPySpace = true := hws
    have hp : parse_url u = none := by
      unfold parse_url
      rw [if_pos hany]
    unfold is_valid_url
    split
    · rfl
    · rw [hp]

/-- C4 witness: the shipped STS pattern set accepts
`https://sts.googleapis.com`, which therefore satisfies all the necessary
conditions, and a URL containing whitespace is rejected. -/
theorem claim_C4_url_allow_list_witness :
    (is_valid_url stsHostFns "https://sts.googleapis.com" = true
      ∧ ("https://sts.googleapis.com" ≠ ""
        ∧ hasInternalWs "https://sts.googleapis.com" = false
        ∧ ∃ host : String,
            parse_url "https://sts.googleapis.com"
              = some { scheme := some "https", hostname := some host }
            ∧ host ≠ ""
            ∧ stsHostFns.any (fun p => p (lowerString host)) = true))
    ∧ (hasWs "https://sts.googleapis.com /x" = true
      ∧ is_valid_url stsHostFns "https://sts.googleapis.com /x" = false) :=
  ⟨⟨by decide, (claim_C4_url_allow_list stsHostFns "https://sts.googleapis.com").1
      (by decide)⟩,
   ⟨by decide, (claim_C4_url_allow_list stsHostFns "https://sts.googleapis.com /x").2
      (by decide)⟩⟩

/-- Helper: normalizing the serialized impersonation options (`or None` on
the way out, `or` the empty dict on the way back) returns the stored dict. -/
theorem impOptions_getD_norm (o : ImpOptions) :
    ((if o.truthy then some o else none).getD emptyImpOptions) = o := by
  by_cases h : o.truthy = true
  · simp [h]
  · rw [Bool.not_eq_true] at h
    rw [h]
    simp only [Bool.false_eq_true, if_false, Option.getD_none]
    cases o with
    | mk tls =>
      cases tls with
      | none => rfl
      | some v => simp [ImpOptions.truthy] at h

/-- Helper: on a stored configuration that passes the constructor checks, the
serialization round trip reconstructs everything except the scopes. -/
theorem ext_round_trip_of_valid (c : ExtCred)
    (h1 : validate_token_url_ok c.token_url = true)
    (h2 : (truthyS c.service_account_impersonation_url
            && !validate_sai_url_ok c.service_account_impersonation_url) = false)
    (h3 : (truthyS c.service_account_impersonation_url
            && (service_account_email c.service_account_impersonation_url).isNone) = false)
    (h4 : (!c.is_workforce_pool && truthyS c.workforce_pool_user_project) = false) :
    ext_from_info (ext_info c) = .ok { c with scopes := none, default_scopes := none } := by
  unfold ext_from_info ext_info extInit extStore
  simp only [ExtCred.is_workforce_pool] at h4 ⊢
  simp only [h1, h2, h3, h4, Bool.not_true, Bool.false_eq_true, if_false,
    impOptions_getD_norm]
  rfl

/-- Helper: inversion of a successful construction — the credential is the
stored record and every constructor check passed. -/
theorem extInit_ok_inv (p : ExtParams) (c : ExtCred) (h : extInit p = .ok c) :
    c = extStore p
    ∧ validate_token_url_ok c.token_url = true
    ∧ (truthyS c.service_account_impersonation_url
        && !validate_sai_url_ok c.service_account_impersonation_url) = false
    ∧ (truthyS c.service_account_impersonation_url
        && (service_account_email c.service_account_impersonation_url).isNone) = false
    ∧ (!c.is_workforce_pool && truthyS c.workforce_pool_user_project) = false := by
  unfold extInit at h
  split at h
  · exact absurd h (by simp)
  · rename_i h1
    split at h
    · exact absurd h (by simp)
    · rename_i h2
      split at h
      · exact absurd h (by simp)
      · rename_i h3
        split at h
        · exact absurd h (by simp)
        · rename_i h4
          rw [Bool.not_eq_true] at h1 h2 h3 h4
          rw [Bool.not_eq_false'] at h1
          injection h with h
          subst h
          exact ⟨rfl, h1, h2, h3, h4⟩

/-- C5 counterexample: the claim says the round trip preserves all configured
fields including scopes and default scopes.  `sampleImpParams` is a valid
configuration with both configured, yet `from_info(info)` does not return the
original credential: neither `info` serializes the scopes nor `from_info`
reads them. -/
theorem claim_C5_counterexample :
    extInit sampleImpParams = .ok sampleImpCred
    ∧ ext_from_info (ext_info sampleImpCred) ≠ .ok sampleImpCred := by
  exact ⟨by decide, by decide⟩

/-- C5 (amended): for every configuration accepted by the constructor, the
round trip `from_info(credential.info)` reconstructs a credential equal to
the original in every configured field except `scopes` and `default_scopes`,
which are not serialized and come back unset. -/
theorem claim_C5_amended_round_trip (p : ExtParams) (c : ExtCred)
    (h : extInit p = .ok c) :
    ext_from_info (ext_info c) = .ok { c with scopes := none, default_scopes := none } := by
  obtain ⟨hc, h1, h2, h3, h4⟩ := extInit_ok_inv p c h
  exact ext_round_trip_of_valid c h1 h2 h3 h4

/-- C5 witness: the amended round trip on the valid sample configuration. -/
theorem claim_C5_amended_witness :
    extInit sampleImpParams = .ok sampleImpCred
    ∧ ext_from_info (ext_info sampleImpCred)
        = .ok { sampleImpCred with scopes := none, default_scopes := none } :=
  ⟨by decide,
   claim_C5_amended_round_trip sampleImpParams sampleImpCred (by decide)⟩

/-- C7 counterexample: the claim says a cached payload that lacks
`expiration_time` makes the supplier silently fall through to executing the
command.  On a non-interactive credential with a (non-empty) output file, a
successful cached payload with no `expiration_time` instead makes
`_parse_subject_token` raise ValueError — `expiration_time` is a required
schema field in exactly this configuration — and the cached-token block
re-raises ValueError rather than falling through: the call errors and never
reaches the spawn step. -/
theorem claim_C7_counterexample :
    plug_retrieve_subject_token samplePCred (some "1") (some c7MissingExpiry) 100
      = .err .valueError := by
  decide

/-- C7 (amended): for a non-interactive pluggable credential with an output
file configured and the executable gate open: a cached response that parses
to a token and carries (a future) `expiration_time` is returned without
executing; an unreadable or unparsable file falls through to the spawn step,
as does any response on which `_parse_subject_token` raises RefreshError
(expired, unsupported version, unsuccessful response); and a response on
which it raises ValueError — a missing required schema field, including a
missing `expiration_time` in this configuration — propagates as a
configuration error instead of falling through. -/
theorem claim_C7_amended_cached_token_path :
    (∀ (c : PCred) (f : String) (nowT : Int),
       c.interactive = false → c.output_file = some f →
       plug_retrieve_subject_token c (some "1") none nowT
         = .spawn (plug_child_env c))
    ∧ (∀ (c : PCred) (f : String) (r : ExecResponse) (nowT : Int) (tok : String),
       c.interactive = false → c.output_file = some f →
       plug_parse_subject_token c r nowT = .ok tok →
       r.expiration_time.isSome = true →
       plug_retrieve_subject_token c (some "1") (some r) nowT = .cached tok)
    ∧ (∀ (c : PCred) (f : String) (r : ExecResponse) (nowT : Int),
       c.interactive = false → c.output_file = some f →
       plug_parse_subject_token c r nowT = .error .refreshError →
       plug_retrieve_subject_token c (some "1") (some r) nowT
         = .spawn (plug_child_env c))
    ∧ (∀ (c : PCred) (f : String) (r : ExecResponse) (nowT : Int),
       c.interactive = false → c.output_file = some f →
       plug_parse_subject_token c r nowT = .error .valueError →
       plug_retrieve_subject_token c (some "1") (some r) nowT = .err .valueError) := by
  refine ⟨?_, ?_, ?_, ?_⟩
  · intro c f nowT hi hof
    unfold plug_retrieve_subject_token
    simp [hi, hof]
  · intro c f r nowT tok hi hof hp hexp
    unfold plug_retrieve_subject_token
    simp [hi, hof, hp, hexp]
  · intro c f r nowT hi hof hp
    unfold plug_retrieve_subject_token
    simp [hi, hof, hp]
  · intro c f r nowT hi hof hp
    unfold plug_retrieve_subject_token
    simp [hi, hof, hp]

/-- C7 witness: on the sample pluggable credential, an unreadable file and an
expired cached response fall through to the spawn step, a good cached
response returns its token, and the response missing `expiration_time`
propagates the configuration error. -/
theorem claim_C7_amended_witness :
    plug_retrieve_subject_token samplePCred (some "1") none 100
      = .spawn (plug_child_env samplePCred)
    ∧ plug_retrieve_subject_token samplePCred (some "1") (some c7CachedGood) 100
      = .cached "J"
    ∧ plug_retrieve_subject_token samplePCred (some "1") (some c7Expired) 100
      = .spawn (plug_child_env samplePCred)
    ∧ plug_retrieve_subject_token samplePCred (some "1") (some c7MissingExpiry) 100
      = .err .valueError :=
  ⟨claim_C7_amended_cached_token_path.1 samplePCred "/tmp/cache.json" 100 rfl rfl,
   claim_C7_amended_cached_token_path.2.1 samplePCred "/tmp/cache.json" c7CachedGood 100 "J"
     rfl rfl (by decide) (by decide),
   claim_C7_amended_cached_token_path.2.2.1 samplePCred "/tmp/cache.json" c7Expired 100
     rfl rfl (by decide),
   claim_C7_amended_cached_token_path.2.2.2 samplePCred "/tmp/cache.json" c7MissingExpiry 100
     rfl rfl (by decide)⟩
